import Mathlib

/-!
Verification of the realtime-voice-calendar-agent backend
(`src/backend/main.py` and `src/backend/get_refresh_token.py`)
against its natural-language specification.

The Python code is shallowly embedded: pure helpers become Lean functions,
the HTTP handlers become functions from an explicit environment / outside
world to a result paired with the list of outbound calls they performed.
Library behaviour (`dateutil.tz`, `datetime`, `hashlib`, `requests`) is
modelled explicitly where the handlers depend on it.
-/

/-! ## Time model

A Python `datetime` is modelled by its clock-face value (`clock`, in seconds
on an abstract linear scale: equal `clock` values mean equal
year/month/day/hour/minute/second tuples) together with an optional attached
`tzinfo`.  A `tzinfo` object (as produced by `dateutil.tz.gettz`) is modelled
by its two observable methods: `utcoffset(dt)`, a function of the wall-clock
value, and the offset it uses in `fromutc`, a function of the UTC instant.
Offsets are in seconds. -/

structure Timezone where
  /-- models `tzinfo.utcoffset(dt)`: the UTC offset the zone assigns to a
  given local wall-clock value, in seconds. -/
  offsetOfLocal : Int → Int
  /-- the offset used by `tzinfo.fromutc` for a given UTC instant, in
  seconds; `fromutc u = u + offsetOfUtc u`. -/
  offsetOfUtc : Int → Int

/-- A real IANA zone is coherent: converting a UTC instant into the zone
yields a wall clock whose `utcoffset` is the offset that was applied. -/
def Timezone.Coherent (z : Timezone) : Prop :=
  ∀ u : Int, z.offsetOfLocal (u + z.offsetOfUtc u) = z.offsetOfUtc u

/-- A fixed-offset zone (what ISO-8601 `+HH:MM` / `Z` suffixes parse to). -/
def Timezone.fixed (o : Int) : Timezone :=
  ⟨fun _ => o, fun _ => o⟩

structure DateTime where
  /-- clock-face value (the displayed year-month-day-hour-minute-second),
  in seconds on an abstract linear scale. -/
  clock : Int
  /-- attached `tzinfo`; `none` models a naive datetime. -/
  tz : Option Timezone

/-- models `datetime.utcoffset()`; only meaningful on aware datetimes
(the `0` default is never used by the embedded code on naive ones). -/
def DateTime.utcoffset (d : DateTime) : Int :=
  match d.tz with
  | none => 0
  | some z => z.offsetOfLocal d.clock

/-- The absolute instant an aware datetime denotes: wall clock minus UTC
offset.  Python compares aware datetimes by this value. -/
def DateTime.instant (d : DateTime) : Int :=
  d.clock - d.utcoffset

/-- models `datetime.replace(tzinfo=z)`: attach the zone, keep the clock. -/
def DateTime.replaceTz (d : DateTime) (z : Timezone) : DateTime :=
  ⟨d.clock, some z⟩

/-- models `datetime.astimezone(z)` on an aware datetime: take the UTC
instant, then `z.fromutc` maps it to the zone's wall clock. -/
def DateTime.astimezone (d : DateTime) (z : Timezone) : DateTime :=
  let u := d.clock - d.utcoffset
  ⟨u + z.offsetOfUtc u, some z⟩

/-- models `datetime + timedelta(minutes=m)`: wall-clock addition, the
`tzinfo` is kept. -/
def DateTime.addMinutes (d : DateTime) (m : Int) : DateTime :=
  ⟨d.clock + 60 * m, d.tz⟩

/-- models `datetime.now(z)` given the current UTC instant `nowUtc`:
the zone's wall clock for that instant, with the zone attached. -/
def DateTime.now (z : Timezone) (nowUtc : Int) : DateTime :=
  ⟨nowUtc + z.offsetOfUtc nowUtc, some z⟩

/-- models `datetime.isoformat()`: a deterministic rendering of the clock
face, with the UTC-offset suffix when the datetime is aware. -/
def DateTime.isoformat (d : DateTime) : String :=
  toString d.clock ++
    (match d.tz with
     | none => ""
     | some z => "+" ++ toString (z.offsetOfLocal d.clock))

/-! ## FastAPI error model -/

/-- models `fastapi.HTTPException(status_code=..., detail=...)`. -/
structure HTTPException where
  status_code : Nat
  detail : String
deriving DecidableEq

/-! ## `normalize_start_end` (src/backend/main.py lines 88-101)

`dateutil.tz.gettz` is ambient library state; the embedding passes it as an
explicit parameter `gettz : String → Option Timezone`. -/

def normalize_start_end (gettz : String → Option Timezone)
    (start_dt : DateTime) (duration_minutes : Int) (timezone : String) :
    Except HTTPException (DateTime × DateTime) :=
  match gettz timezone with
  | none => .error ⟨400, "Invalid timezone: " ++ timezone⟩
  | some tzinfo =>
    let start_local :=
      match start_dt.tz with
      | none => start_dt.replaceTz tzinfo
      | some _ => start_dt.astimezone tzinfo
    let end_local := start_local.addMinutes duration_minutes
    .ok (start_local, end_local)

/-! ## SHA-256 (models Python's `hashlib.sha256`)

Standard FIPS 180-4 SHA-256 over a list of bytes, with 32-bit words
represented as `Nat` reduced modulo `2 ^ 32`. -/

def pow32 : Nat := 4294967296

def add32 (a b : Nat) : Nat := (a + b) % pow32

def rotr32 (n a : Nat) : Nat := ((a >>> n) ||| (a <<< (32 - n))) % pow32

def not32 (a : Nat) : Nat := a ^^^ 4294967295

def shaCh (e f g : Nat) : Nat := (e &&& f) ^^^ (not32 e &&& g)

def shaMaj (a b c : Nat) : Nat := (a &&& b) ^^^ (a &&& c) ^^^ (b &&& c)

def bigSigma0 (a : Nat) : Nat := rotr32 2 a ^^^ rotr32 13 a ^^^ rotr32 22 a

def bigSigma1 (e : Nat) : Nat := rotr32 6 e ^^^ rotr32 11 e ^^^ rotr32 25 e

def smallSigma0 (x : Nat) : Nat := rotr32 7 x ^^^ rotr32 18 x ^^^ (x >>> 3)

def smallSigma1 (x : Nat) : Nat := rotr32 17 x ^^^ rotr32 19 x ^^^ (x >>> 10)

def K256 : List Nat :=
  [1116352408, 1899447441, 3049323471, 3921009573, 961987163,
   1508970993, 2453635748, 2870763221, 3624381080, 310598401,
   607225278, 1426881987, 1925078388, 2162078206, 2614888103,
   3248222580, 3835390401, 4022224774, 264347078, 604807628,
   770255983, 1249150122, 1555081692, 1996064986, 2554220882,
   2821834349, 2952996808, 3210313671, 3336571891, 3584528711,
   113926993, 338241895, 666307205, 773529912, 1294757372,
   1396182291, 1695183700, 1986661051, 2177026350, 2456956037,
   2730485921, 2820302411, 3259730800, 3345764771, 3516065817,
   3600352804, 4094571909, 275423344, 430227734, 506948616,
   659060556, 883997877, 958139571, 1322822218, 1537002063,
   1747873779, 1955562222, 2024104815, 2227730452, 2361852424,
   2428436474, 2756734187, 3204031479, 3329325298]

structure Hash8 where
  a : Nat
  b : Nat
  c : Nat
  d : Nat
  e : Nat
  f : Nat
  g : Nat
  h : Nat
deriving DecidableEq

def initH : Hash8 :=
  ⟨1779033703, 3144134277, 1013904242, 2773480762,
   1359893119, 2600822924, 528734635, 1541459225⟩

/-- append the `0x80` marker, the zero padding and the 64-bit big-endian
bit length, reaching a multiple of 64 bytes. -/
def padMessage (msg : List Nat) : List Nat :=
  let L := msg.length
  msg ++ 128 :: List.replicate ((119 - L % 64) % 64) 0
      ++ (List.range 8).map (fun i => ((8 * L) >>> (56 - 8 * i)) % 256)

def toChunks (l : List Nat) : List (List Nat) :=
  if h : l = [] then []
  else l.take 64 :: toChunks (l.drop 64)
termination_by l.length
decreasing_by
  have hp : 0 < l.length := List.length_pos.mpr h
  simp only [List.length_drop]
  omega

def bytesToWord (c : List Nat) (i : Nat) : Nat :=
  ((c.getD (4 * i) 0) <<< 24) + ((c.getD (4 * i + 1) 0) <<< 16) +
    ((c.getD (4 * i + 2) 0) <<< 8) + c.getD (4 * i + 3) 0

/-- one extension step of the message schedule; the list holds the words
produced so far, most recent first. -/
def scheduleStep (ws : List Nat) : List Nat :=
  add32 (add32 (smallSigma1 (ws.getD 1 0)) (ws.getD 6 0))
        (add32 (smallSigma0 (ws.getD 14 0)) (ws.getD 15 0)) :: ws

def extendSchedule : Nat → List Nat → List Nat
  | 0, ws => ws
  | n + 1, ws => extendSchedule n (scheduleStep ws)

def schedule (chunk : List Nat) : List Nat :=
  (extendSchedule 48 (((List.range 16).map (bytesToWord chunk)).reverse)).reverse

def compressRound (s : Hash8) (kw : Nat × Nat) : Hash8 :=
  let t1 := add32 s.h (add32 (bigSigma1 s.e) (add32 (shaCh s.e s.f s.g) (add32 kw.1 kw.2)))
  let t2 := add32 (bigSigma0 s.a) (shaMaj s.a s.b s.c)
  ⟨add32 t1 t2, s.a, s.b, s.c, add32 s.d t1, s.e, s.f, s.g⟩

def processChunk (h : Hash8) (chunk : List Nat) : Hash8 :=
  let s := (K256.zip (schedule chunk)).foldl compressRound h
  ⟨add32 h.a s.a, add32 h.b s.b, add32 h.c s.c, add32 h.d s.d,
   add32 h.e s.e, add32 h.f s.f, add32 h.g s.g, add32 h.h s.h⟩

def sha256words (msg : List Nat) : List Nat :=
  let fin := (toChunks (padMessage msg)).foldl processChunk initH
  [fin.a, fin.b, fin.c, fin.d, fin.e, fin.f, fin.g, fin.h]

def hexCharList : List Char := String.toList "0123456789abcdef"

def hexDigit (n : Nat) : Char := hexCharList.getD (n % 16) (Char.ofNat 48)

def word32Nibbles (w : Nat) : List Nat :=
  (List.range 8).map (fun i => (w >>> (28 - 4 * i)) % 16)

/-- models `hashlib.sha256(bytes).hexdigest()` as its list of characters. -/
def sha256hexChars (msg : List Nat) : List Char :=
  (sha256words msg).flatMap (fun w => (word32Nibbles w).map hexDigit)

/-- models `s.encode("utf-8")`. -/
def strBytes (s : String) : List Nat :=
  s.toUTF8.toList.map (fun b => b.toNat)

/-! ## Service configuration (src/backend/main.py lines 21-25)

The environment variables read at module load, already `.strip()`-ped; the
empty string is Python-falsy and models an absent variable. -/

structure Env where
  GOOGLE_CLIENT_ID : String
  GOOGLE_CLIENT_SECRET : String
  GOOGLE_REFRESH_TOKEN : String
  CALENDAR_ID : String
deriving DecidableEq

/-! ## Request / response models (src/backend/main.py lines 30-46) -/

structure CreateEventRequest where
  name : String
  title : String
  start : DateTime
  durationMinutes : Int
  timezone : String
  invitees : Option (List String)

structure CreateEventResponse where
  eventId : String
  htmlLink : Option String
  summary : String
  start : String
  /-- the `end` field (a reserved word in Lean). -/
  end_ : String
  calendarId : String
  requestId : String
deriving DecidableEq

/-- Simplified model of pydantic's `EmailStr` check. -/
def emailOk (s : String) : Bool := s.contains '@'

/-- the `ge=15, le=240` bounds on `durationMinutes` (line 34). -/
def durationOk (r : CreateEventRequest) : Bool :=
  decide (15 ≤ r.durationMinutes) && decide (r.durationMinutes ≤ 240)

/-- pydantic field validation of `CreateEventRequest` (lines 30-36): FastAPI
rejects the request with a 422 before the handler runs when this fails. -/
def validRequest (r : CreateEventRequest) : Bool :=
  decide (1 ≤ r.name.length) && decide (r.name.length ≤ 120) &&
  decide (1 ≤ r.title.length) && decide (r.title.length ≤ 200) &&
  durationOk r &&
  decide (1 ≤ r.timezone.length) && decide (r.timezone.length ≤ 64) &&
  (match r.invitees with
   | none => true
   | some l => l.all emailOk)

/-! ## Outside world

A JSON response body is modelled by the key lookups the code performs plus
its textual rendering (used in f-string error messages). -/

structure JsonDict where
  /-- lookup of the "access_token" key. -/
  access_token : Option String
  /-- lookup of the "refresh_token" key. -/
  refresh_token : Option String
  /-- the dict's textual rendering, as interpolated into f-strings. -/
  repr : String
deriving DecidableEq

structure EventTimeObj where
  dateTime : Option String
deriving DecidableEq

/-- the calendar event-insert response body, via the lookups of lines
147-152. -/
structure EventRespBody where
  id : Option String
  htmlLink : Option String
  summary : Option String
  start : Option EventTimeObj
  /-- the "end" key (a reserved word in Lean). -/
  end_ : Option EventTimeObj
  repr : String
deriving DecidableEq

/-- an HTTP response from the provider: `status_code` and the parsed
`resp.json()` body. -/
structure HttpResp (β : Type) where
  status_code : Nat
  body : β
deriving DecidableEq

/-- everything outside the process that a `create-event` call can observe:
the token-endpoint response, the event-insert response and the current UTC
instant. -/
structure World where
  tokenResp : HttpResp JsonDict
  insertResp : HttpResp EventRespBody
  nowUtc : Int
deriving DecidableEq

/-- outbound calls made by `create_event`, in order. -/
inductive Call where
  | tokenRefresh
  | eventInsert
deriving DecidableEq, BEq

/-! ## `_require_env` (src/backend/main.py lines 49-54) -/

def _require_env (env : Env) : Except HTTPException Unit :=
  if ¬(env.GOOGLE_CLIENT_ID ≠ "" ∧ env.GOOGLE_CLIENT_SECRET ≠ "" ∧
        env.GOOGLE_REFRESH_TOKEN ≠ "") then
    .error ⟨500,
      "Server missing GOOGLE_CLIENT_ID/GOOGLE_CLIENT_SECRET/GOOGLE_REFRESH_TOKEN env vars."⟩
  else
    .ok ()

/-! ## `_get_access_token` (src/backend/main.py lines 57-73) -/

def _get_access_token (env : Env) (resp : HttpResp JsonDict) :
    Except HTTPException String :=
  match _require_env env with
  | .error e => .error e
  | .ok _ =>
    if resp.status_code ≠ 200 ∨ resp.body.access_token = none then
      .error ⟨502, "Google token refresh failed: " ++ resp.body.repr⟩
    else
      .ok (resp.body.access_token.getD "")

/-! ## `_make_request_id` (src/backend/main.py lines 76-79) -/

/-- Python's `repr` of a list of strings, as interpolated by
`f"...{payload.invitees or []}"`. -/
def pyListRepr (l : List String) : String :=
  "[" ++ String.intercalate ", " (l.map (fun s => "\x27" ++ s ++ "\x27")) ++ "]"

/-- the f-string key of line 78. -/
def requestKey (payload : CreateEventRequest) : String :=
  payload.name ++ "|" ++ payload.title ++ "|" ++ payload.start.isoformat ++ "|" ++
    toString payload.durationMinutes ++ "|" ++ payload.timezone ++ "|" ++
    pyListRepr (payload.invitees.getD [])

def _make_request_id (payload : CreateEventRequest) : String :=
  String.mk ((sha256hexChars (strBytes (requestKey payload))).take 16)

/-! ## `create_event` (src/backend/main.py lines 104-155) -/

/-- Python's `s or d` on strings: the empty string is falsy. -/
def pyOr (s d : String) : String := if s = "" then d else s

def create_event (gettz : String → Option Timezone) (env : Env) (w : World)
    (req : CreateEventRequest) :
    Except HTTPException CreateEventResponse × List Call :=
  match _require_env env with
  | .error e => (.error e, [])
  | .ok _ =>
  match normalize_start_end gettz req.start req.durationMinutes req.timezone with
  | .error e => (.error e, [])
  | .ok (start_local, end_local) =>
  match gettz req.timezone with
  | none =>
    -- unreachable: normalize_start_end already rejected an unknown zone.
    (.error ⟨500, "Internal Server Error"⟩, [])
  | some tzinfo =>
    let now_local := DateTime.now tzinfo w.nowUtc
    -- aware-datetime comparison `start_local < now_local` compares instants
    if start_local.instant < now_local.instant then
      (.error ⟨400, "Start time is in the past for timezone " ++ req.timezone ++
          ". Please choose a future time."⟩, [])
    else
      let request_id := _make_request_id req
      match _get_access_token env w.tokenResp with
      | .error e => (.error e, [.tokenRefresh])
      | .ok _access_token =>
        let data := w.insertResp.body
        if w.insertResp.status_code ∉ ([200, 201] : List Nat) then
          (.error ⟨502, "Google Calendar insert failed: " ++ data.repr⟩,
           [.tokenRefresh, .eventInsert])
        else
          (.ok {
            eventId := data.id.getD ""
            htmlLink := data.htmlLink
            summary := data.summary.getD (pyOr req.title "Meeting")
            start := match data.start with
                     | none => start_local.isoformat
                     | some o => o.dateTime.getD start_local.isoformat
            end_ := match data.end_ with
                    | none => end_local.isoformat
                    | some o => o.dateTime.getD end_local.isoformat
            calendarId := env.CALENDAR_ID
            requestId := request_id }, [.tokenRefresh, .eventInsert])

/-- the full FastAPI endpoint: pydantic validation, then the handler. -/
def create_event_endpoint (gettz : String → Option Timezone) (env : Env)
    (w : World) (req : CreateEventRequest) :
    Except HTTPException CreateEventResponse × List Call :=
  if validRequest req then create_event gettz env w req
  else (.error ⟨422, "Unprocessable Entity"⟩, [])

/-! ## Credential bootstrap helper (src/backend/get_refresh_token.py)

Only `oauth2callback` (lines 65-119) is embedded; the index page merely
renders a link.  Flask query parameters and the token-exchange response
are explicit inputs; the result is the `(body, status)` pair Flask returns,
paired with the list of outbound calls performed. -/

/-- the query parameters of the callback request: the two lookups the
handler performs, plus the rendering of `dict(request.args)` used in the
missing-code message. -/
structure CallbackArgs where
  state : Option String
  code : Option String
  repr : String
deriving DecidableEq

inductive BootCall where
  | tokenExchange
deriving DecidableEq, BEq

/-- Python truthiness of `request.args.get(...)`: `None` and the empty
string are falsy. -/
def pyFalsy (o : Option String) : Bool :=
  match o with
  | none => true
  | some s => s = ""

/-- the lines 98-107 page shown when no refresh token was returned. -/
def noRefreshTokenPage (bodyRepr : String) : String :=
  "<h3>No refresh_token returned.</h3>" ++
  "<p>This usually means Google did not re-issue it.</p>" ++
  "<ul>" ++
  "<li>Make sure prompt=consent and access_type=offline are set (this script does).</li>" ++
  "<li>Go to https://myaccount.google.com/permissions and remove the app, then try again.</li>" ++
  "</ul>" ++
  "<pre>" ++ bodyRepr ++ "</pre>"

/-- the lines 114-119 success page. -/
def successPage (refresh_token : String) : String :=
  "<h2>Success ✅</h2>" ++
  "<p>Copy this refresh token and store it as a Cloudflare Worker secret:</p>" ++
  "<pre>" ++ refresh_token ++ "</pre>" ++
  "<p>You can now close this tab.</p>"

def oauth2callback (STATE : String) (args : CallbackArgs)
    (tokenResp : HttpResp JsonDict) : (String × Nat) × List BootCall :=
  if args.state ≠ some STATE then
    (("State mismatch. Abort.", 400), [])
  else if pyFalsy args.code then
    (("Missing code. Params: " ++ args.repr, 400), [])
  else if tokenResp.status_code ≠ 200 then
    (("Token exchange failed: " ++ tokenResp.body.repr, 500), [.tokenExchange])
  else if pyFalsy tokenResp.body.refresh_token then
    ((noRefreshTokenPage tokenResp.body.repr, 200), [.tokenExchange])
  else
    ((successPage (tokenResp.body.refresh_token.getD ""), 200), [.tokenExchange])

/-! ## Theorems -/

/-- C1: for every create-event request whose start timestamp is naive (no
UTC offset), `normalize_start_end` attaches the resolved zone without
shifting: the normalized `startLocal` has exactly the input's clock-face
value with the target zone attached (and `endLocal` adds the duration to
that same clock face). -/
theorem naive_start_keeps_clock_face
    (gettz : String → Option Timezone) (start_dt : DateTime)
    (duration_minutes : Int) (timezone : String) (z : Timezone)
    (hnaive : start_dt.tz = none) (hz : gettz timezone = some z) :
    normalize_start_end gettz start_dt duration_minutes timezone =
      .ok (⟨start_dt.clock, some z⟩,
           ⟨start_dt.clock + 60 * duration_minutes, some z⟩) := by
  simp [normalize_start_end, hz, hnaive, DateTime.replaceTz, DateTime.addMinutes]

/-- Witness for `naive_start_keeps_clock_face` at a concrete naive input. -/
theorem naive_start_keeps_clock_face_witness :
    (DateTime.mk 100 none).tz = none ∧
    (fun _ : String => some (Timezone.fixed 0)) "UTC" = some (Timezone.fixed 0) ∧
    normalize_start_end (fun _ : String => some (Timezone.fixed 0))
        ⟨100, none⟩ 30 "UTC" =
      .ok (⟨100, some (Timezone.fixed 0)⟩, ⟨100 + 60 * 30, some (Timezone.fixed 0)⟩) :=
  ⟨rfl, rfl, naive_start_keeps_clock_face _ _ _ _ _ rfl rfl⟩

/-- C2: for every create-event request whose start timestamp carries a UTC
offset, `normalize_start_end` produces a `startLocal` denoting the same
absolute instant, re-expressed in the (coherent) target zone. -/
theorem aware_start_preserves_instant
    (gettz : String → Option Timezone) (start_dt : DateTime)
    (duration_minutes : Int) (timezone : String) (z tz0 : Timezone)
    (haware : start_dt.tz = some tz0) (hz : gettz timezone = some z)
    (hcoh : z.Coherent) :
    ∃ s e, normalize_start_end gettz start_dt duration_minutes timezone = .ok (s, e) ∧
      s.instant = start_dt.instant ∧ s.tz = some z := by
  refine ⟨start_dt.astimezone z, (start_dt.astimezone z).addMinutes duration_minutes,
    ?_, ?_, rfl⟩
  · simp [normalize_start_end, hz, haware]
  · simp only [DateTime.astimezone, DateTime.instant, DateTime.utcoffset,
      hcoh (start_dt.clock - match start_dt.tz with
        | none => 0
        | some z => z.offsetOfLocal start_dt.clock)]
    ring

/-- Witness for `aware_start_preserves_instant` at a concrete
offset-bearing input. -/
theorem aware_start_preserves_instant_witness :
    (DateTime.mk 100 (some (Timezone.fixed 0))).tz = some (Timezone.fixed 0) ∧
    (fun _ : String => some (Timezone.fixed 3600)) "Somewhere" = some (Timezone.fixed 3600) ∧
    Timezone.Coherent (Timezone.fixed 3600) ∧
    (∃ s e, normalize_start_end (fun _ : String => some (Timezone.fixed 3600))
        ⟨100, some (Timezone.fixed 0)⟩ 30 "Somewhere" = .ok (s, e) ∧
      s.instant = (DateTime.mk 100 (some (Timezone.fixed 0))).instant ∧
      s.tz = some (Timezone.fixed 3600)) :=
  ⟨rfl, rfl, fun _ => rfl,
   aware_start_preserves_instant _ _ 30 _ _ _ rfl rfl (fun _ => rfl)⟩

/-- C3: a request whose normalized `startLocal` is strictly earlier than the
current instant evaluated in the resolved zone is rejected with HTTP 400 and
a message naming the timezone, and no outbound call (token refresh or event
insert) is performed. -/
theorem past_start_rejected_before_outbound
    (gettz : String → Option Timezone) (env : Env) (w : World)
    (req : CreateEventRequest) (z : Timezone) (s e : DateTime)
    (henv : _require_env env = .ok ())
    (hz : gettz req.timezone = some z)
    (hnorm : normalize_start_end gettz req.start req.durationMinutes req.timezone
        = .ok (s, e))
    (hpast : s.instant < (DateTime.now z w.nowUtc).instant) :
    create_event gettz env w req =
      (.error ⟨400, "Start time is in the past for timezone " ++ req.timezone ++
          ". Please choose a future time."⟩, []) := by
  simp [create_event, henv, hnorm, hz, hpast]

/-- Witness for `past_start_rejected_before_outbound` at a concrete
in-the-past request. -/
theorem past_start_rejected_before_outbound_witness :
    _require_env ⟨"id", "secret", "refresh", "primary"⟩ = .ok () ∧
    (fun _ : String => some (Timezone.fixed 0)) "UTC" = some (Timezone.fixed 0) ∧
    normalize_start_end (fun _ : String => some (Timezone.fixed 0))
        ⟨0, none⟩ 30 "UTC" =
      .ok (⟨0, some (Timezone.fixed 0)⟩, ⟨1800, some (Timezone.fixed 0)⟩) ∧
    (DateTime.mk 0 (some (Timezone.fixed 0))).instant <
      (DateTime.now (Timezone.fixed 0) 100).instant ∧
    create_event (fun _ : String => some (Timezone.fixed 0))
        ⟨"id", "secret", "refresh", "primary"⟩
        ⟨⟨200, ⟨some "t", none, ""⟩⟩, ⟨200, ⟨none, none, none, none, none, ""⟩⟩, 100⟩
        ⟨"Ada", "Sync", ⟨0, none⟩, 30, "UTC", none⟩ =
      (.error ⟨400, "Start time is in the past for timezone " ++ "UTC" ++
          ". Please choose a future time."⟩, []) :=
  ⟨rfl, rfl, rfl, by decide,
   past_start_rejected_before_outbound _ _ _ _ _ _ _ rfl rfl rfl (by decide)⟩

/-- C4: if any of the three required configuration values is absent (the
empty string) when a create-event request arrives, `create_event` fails with
HTTP 500 and performs no outbound call. -/
theorem missing_config_rejected_before_any_call
    (gettz : String → Option Timezone) (env : Env) (w : World)
    (req : CreateEventRequest)
    (hmiss : env.GOOGLE_CLIENT_ID = "" ∨ env.GOOGLE_CLIENT_SECRET = "" ∨
        env.GOOGLE_REFRESH_TOKEN = "") :
    create_event gettz env w req =
      (.error ⟨500,
        "Server missing GOOGLE_CLIENT_ID/GOOGLE_CLIENT_SECRET/GOOGLE_REFRESH_TOKEN env vars."⟩,
       []) := by
  have hre : _require_env env = .error ⟨500,
      "Server missing GOOGLE_CLIENT_ID/GOOGLE_CLIENT_SECRET/GOOGLE_REFRESH_TOKEN env vars."⟩ := by
    unfold _require_env
    rcases hmiss with h | h | h <;> simp [h]
  simp [create_event, hre]

/-- Witness for `missing_config_rejected_before_any_call` with a missing
refresh credential. -/
theorem missing_config_rejected_before_any_call_witness :
    ((Env.mk "id" "secret" "" "primary").GOOGLE_CLIENT_ID = "" ∨
     (Env.mk "id" "secret" "" "primary").GOOGLE_CLIENT_SECRET = "" ∨
     (Env.mk "id" "secret" "" "primary").GOOGLE_REFRESH_TOKEN = "") ∧
    create_event (fun _ : String => some (Timezone.fixed 0))
        ⟨"id", "secret", "", "primary"⟩
        ⟨⟨200, ⟨some "t", none, ""⟩⟩, ⟨200, ⟨none, none, none, none, none, ""⟩⟩, 0⟩
        ⟨"Ada", "Sync", ⟨0, none⟩, 30, "UTC", none⟩ =
      (.error ⟨500,
        "Server missing GOOGLE_CLIENT_ID/GOOGLE_CLIENT_SECRET/GOOGLE_REFRESH_TOKEN env vars."⟩,
       []) :=
  ⟨Or.inr (Or.inr rfl),
   missing_config_rejected_before_any_call _ _ _ _ (Or.inr (Or.inr rfl))⟩

/-- C5: a `durationMinutes` outside the inclusive range [15, 240] is
rejected by request validation with a 422 before any outbound call; a value
inside the range passes the duration bounds check. -/
theorem duration_bounds_enforced
    (gettz : String → Option Timezone) (env : Env) (w : World)
    (req : CreateEventRequest) :
    ((req.durationMinutes < 15 ∨ 240 < req.durationMinutes) →
        create_event_endpoint gettz env w req =
          (.error ⟨422, "Unprocessable Entity"⟩, [])) ∧
    (15 ≤ req.durationMinutes → req.durationMinutes ≤ 240 →
        durationOk req = true) := by
  constructor
  · intro h
    have hd : durationOk req = false := by
      unfold durationOk
      rcases h with h | h <;> simp <;> omega
    have hv : validRequest req = false := by
      unfold validRequest
      rw [hd]
      simp
    simp [create_event_endpoint, hv]
  · intro h1 h2
    unfold durationOk
    simp [h1, h2]

/-- Witness for `duration_bounds_enforced`: a 5-minute request is rejected
with a 422 and no calls; a 30-minute request passes the bounds check. -/
theorem duration_bounds_enforced_witness :
    create_event_endpoint (fun _ : String => some (Timezone.fixed 0))
        ⟨"id", "secret", "refresh", "primary"⟩
        ⟨⟨200, ⟨some "t", none, ""⟩⟩, ⟨200, ⟨none, none, none, none, none, ""⟩⟩, 0⟩
        ⟨"Ada", "Sync", ⟨0, none⟩, 5, "UTC", none⟩ =
      (.error ⟨422, "Unprocessable Entity"⟩, []) ∧
    durationOk ⟨"Ada", "Sync", ⟨0, none⟩, 30, "UTC", none⟩ = true :=
  ⟨(duration_bounds_enforced _ _ _ _).1 (Or.inl (by decide)),
   (duration_bounds_enforced (fun _ : String => some (Timezone.fixed 0))
      ⟨"id", "secret", "refresh", "primary"⟩
      ⟨⟨200, ⟨some "t", none, ""⟩⟩, ⟨200, ⟨none, none, none, none, none, ""⟩⟩, 0⟩
      ⟨"Ada", "Sync", ⟨0, none⟩, 30, "UTC", none⟩).2 (by decide) (by decide)⟩

lemma hexDigit_mem_hexCharList (n : Nat) : hexDigit n ∈ hexCharList := by
  unfold hexDigit
  have h16 : hexCharList.length = 16 := rfl
  have h : n % 16 < hexCharList.length := by
    have := Nat.mod_lt n (y := 16) (by decide)
    omega
  rw [List.getD_eq_getElem hexCharList _ h]
  exact List.getElem_mem h

lemma sha256hexChars_length (msg : List Nat) : (sha256hexChars msg).length = 64 := by
  simp [sha256hexChars, sha256words, word32Nibbles]

lemma mem_sha256hexChars (msg : List Nat) (c : Char) (hc : c ∈ sha256hexChars msg) :
    c ∈ hexCharList := by
  unfold sha256hexChars at hc
  rcases List.mem_flatMap.mp hc with ⟨w, _, hw⟩
  rcases List.mem_map.mp hw with ⟨n, _, rfl⟩
  exact hexDigit_mem_hexCharList n

/-- C6: the request fingerprint is deterministic: two requests with
pairwise-equal `name`, `title`, `start`, `durationMinutes`, `timezone` and
`invitees` get the identical fingerprint, which is a 16-character truncation
of the digest consisting of hexadecimal characters only. -/
theorem fingerprint_deterministic (r1 r2 : CreateEventRequest)
    (hname : r1.name = r2.name) (htitle : r1.title = r2.title)
    (hstart : r1.start = r2.start)
    (hdur : r1.durationMinutes = r2.durationMinutes)
    (htz : r1.timezone = r2.timezone) (hinv : r1.invitees = r2.invitees) :
    _make_request_id r1 = _make_request_id r2 ∧
    (_make_request_id r1).length = 16 ∧
    ∀ c ∈ (_make_request_id r1).toList, c ∈ hexCharList := by
  have hkey : requestKey r1 = requestKey r2 := by
    unfold requestKey
    rw [hname, htitle, hstart, hdur, htz, hinv]
  refine ⟨?_, ?_, ?_⟩
  · unfold _make_request_id
    rw [hkey]
  · unfold _make_request_id
    simp only [String.length]
    rw [List.length_take, sha256hexChars_length]
    decide
  · intro c hc
    have hc' : c ∈ (sha256hexChars (strBytes (requestKey r1))).take 16 := hc
    exact mem_sha256hexChars _ c (List.take_subset _ _ hc')

/-- Witness for `fingerprint_deterministic` at two concrete requests with
equal fields. -/
theorem fingerprint_deterministic_witness :
    _make_request_id ⟨"Ada", "Sync", ⟨5, none⟩, 30, "UTC", none⟩ =
      _make_request_id ⟨"Ada", "Sync", ⟨2 + 3, none⟩, 30, "UTC", none⟩ ∧
    (_make_request_id ⟨"Ada", "Sync", ⟨5, none⟩, 30, "UTC", none⟩).length = 16 ∧
    ∀ c ∈ (_make_request_id (⟨"Ada", "Sync", ⟨5, none⟩, 30, "UTC", none⟩ :
        CreateEventRequest)).toList, c ∈ hexCharList :=
  fingerprint_deterministic _ _ rfl rfl rfl rfl rfl rfl

/-- first request of the C9 collision pair: name `a|b`, title `c`. -/
def collisionReqA : CreateEventRequest := ⟨"a|b", "c", ⟨0, none⟩, 30, "UTC", none⟩

/-- second request of the C9 collision pair: name `a`, title `b|c`. -/
def collisionReqB : CreateEventRequest := ⟨"a", "b|c", ⟨0, none⟩, 30, "UTC", none⟩

/-- C9: the fingerprint input is not injective across fields: two distinct
valid requests (name `a|b` / title `c` versus name `a` / title `b|c`) build
the same `|`-joined key, so `_make_request_id` maps them to the same
fingerprint. -/
theorem fingerprint_key_not_injective :
    collisionReqA ≠ collisionReqB ∧
    validRequest collisionReqA = true ∧
    validRequest collisionReqB = true ∧
    requestKey collisionReqA = requestKey collisionReqB ∧
    _make_request_id collisionReqA = _make_request_id collisionReqB := by
  have hkey : requestKey collisionReqA = requestKey collisionReqB := by decide
  refine ⟨?_, by decide, by decide, hkey, ?_⟩
  · intro h
    exact absurd (congrArg CreateEventRequest.name h) (by decide)
  · unfold _make_request_id
    rw [hkey]

lemma create_event_calls_cases (gettz : String → Option Timezone) (env : Env)
    (w : World) (req : CreateEventRequest) :
    (create_event gettz env w req).2 = [] ∨
    (create_event gettz env w req).2 = [Call.tokenRefresh] ∨
    (create_event gettz env w req).2 = [Call.tokenRefresh, Call.eventInsert] := by
  unfold create_event
  dsimp only
  repeat' split
  all_goals
    first
    | exact Or.inl rfl
    | exact Or.inr (Or.inl rfl)
    | exact Or.inr (Or.inr rfl)

/-- C7: with complete configuration, the access-credential refresh fails
with HTTP 502 whenever the token-endpoint status is not 200 or the body
lacks an access credential, yields the credential otherwise, and a
`create_event` call performs at most one token-refresh attempt (no retry). -/
theorem token_refresh_behaviour
    (gettz : String → Option Timezone) (env : Env) (w : World)
    (req : CreateEventRequest) (resp : HttpResp JsonDict)
    (henv : _require_env env = .ok ()) :
    ((resp.status_code ≠ 200 ∨ resp.body.access_token = none) →
        _get_access_token env resp =
          .error ⟨502, "Google token refresh failed: " ++ resp.body.repr⟩) ∧
    (∀ t, resp.status_code = 200 → resp.body.access_token = some t →
        _get_access_token env resp = .ok t) ∧
    (create_event gettz env w req).2.count .tokenRefresh ≤ 1 := by
  refine ⟨?_, ?_, ?_⟩
  · intro h
    simp only [_get_access_token, henv]
    rw [if_pos h]
  · intro t h1 h2
    simp [_get_access_token, henv, h1, h2]
  · rcases create_event_calls_cases gettz env w req with h | h | h <;>
      rw [h] <;> decide

/-- Witness for `token_refresh_behaviour` at a concrete configuration and
failing token response. -/
theorem token_refresh_behaviour_witness :
    _require_env ⟨"id", "secret", "refresh", "primary"⟩ = .ok () ∧
    ((((HttpResp.mk 500 (JsonDict.mk none none "boom")).status_code ≠ 200 ∨
        (HttpResp.mk 500 (JsonDict.mk none none "boom")).body.access_token = none) →
        _get_access_token ⟨"id", "secret", "refresh", "primary"⟩ ⟨500, ⟨none, none, "boom"⟩⟩ =
          .error ⟨502, "Google token refresh failed: " ++
            (HttpResp.mk 500 (JsonDict.mk none none "boom")).body.repr⟩) ∧
     (∀ t, (HttpResp.mk 500 (JsonDict.mk none none "boom")).status_code = 200 →
        (HttpResp.mk 500 (JsonDict.mk none none "boom")).body.access_token = some t →
        _get_access_token ⟨"id", "secret", "refresh", "primary"⟩ ⟨500, ⟨none, none, "boom"⟩⟩ = .ok t) ∧
     (create_event (fun _ : String => some (Timezone.fixed 0))
        ⟨"id", "secret", "refresh", "primary"⟩
        ⟨⟨500, ⟨none, none, "boom"⟩⟩, ⟨200, ⟨none, none, none, none, none, ""⟩⟩, 0⟩
        ⟨"Ada", "Sync", ⟨100, none⟩, 30, "UTC", none⟩).2.count .tokenRefresh ≤ 1) :=
  ⟨rfl, token_refresh_behaviour _ _ _ _ _ rfl⟩

/-- C8: a bootstrap callback invocation whose `state` parameter differs from
the session's generated state value returns HTTP 400 and performs no
code-for-token exchange. -/
theorem state_mismatch_aborts
    (STATE : String) (args : CallbackArgs) (tokenResp : HttpResp JsonDict)
    (hmismatch : args.state ≠ some STATE) :
    oauth2callback STATE args tokenResp = (("State mismatch. Abort.", 400), []) := by
  simp [oauth2callback, hmismatch]

/-- Witness for `state_mismatch_aborts` at a concrete mismatching state. -/
theorem state_mismatch_aborts_witness :
    (CallbackArgs.mk (some "evil") (some "code") "params").state ≠ some "expected" ∧
    oauth2callback "expected" ⟨some "evil", some "code", "params"⟩
        ⟨200, ⟨some "at", some "rt", ""⟩⟩ =
      (("State mismatch. Abort.", 400), []) :=
  ⟨by decide, state_mismatch_aborts _ _ _ (by decide)⟩

/-- C10: when the event-insert response has a success status (200 or 201)
but its body lacks an `id`, `create_event` still succeeds; the returned
`eventId` is the empty string and `summary`/`start`/`end` fall back to the
locally computed title and normalized interval when absent from the body. -/
theorem insert_success_without_id
    (gettz : String → Option Timezone) (env : Env) (w : World)
    (req : CreateEventRequest) (z : Timezone) (s e : DateTime) (t : String)
    (henv : _require_env env = .ok ())
    (hz : gettz req.timezone = some z)
    (hnorm : normalize_start_end gettz req.start req.durationMinutes req.timezone
        = .ok (s, e))
    (hnotpast : ¬ s.instant < (DateTime.now z w.nowUtc).instant)
    (htokst : w.tokenResp.status_code = 200)
    (htok : w.tokenResp.body.access_token = some t)
    (hins : w.insertResp.status_code = 200 ∨ w.insertResp.status_code = 201)
    (hid : w.insertResp.body.id = none) :
    create_event gettz env w req =
      (.ok { eventId := ""
             htmlLink := w.insertResp.body.htmlLink
             summary := w.insertResp.body.summary.getD (pyOr req.title "Meeting")
             start := match w.insertResp.body.start with
                      | none => s.isoformat
                      | some o => o.dateTime.getD s.isoformat
             end_ := match w.insertResp.body.end_ with
                     | none => e.isoformat
                     | some o => o.dateTime.getD e.isoformat
             calendarId := env.CALENDAR_ID
             requestId := _make_request_id req },
       [.tokenRefresh, .eventInsert]) := by
  have htok' : _get_access_token env w.tokenResp = .ok t := by
    simp [_get_access_token, henv, htokst, htok]
  have hmem : w.insertResp.status_code ∈ ([200, 201] : List Nat) := by
    rcases hins with h | h <;> simp [h]
  simp [create_event, henv, hnorm, hz, hnotpast, htok', hmem, hid]

/-- Witness for `insert_success_without_id` at a concrete world whose insert
response is `200` with an empty body. -/
theorem insert_success_without_id_witness :
    create_event (fun _ : String => some (Timezone.fixed 0))
        ⟨"id", "secret", "refresh", "primary"⟩
        ⟨⟨200, ⟨some "tok", none, ""⟩⟩, ⟨200, ⟨none, none, none, none, none, "er"⟩⟩, 50⟩
        ⟨"Ada", "Sync", ⟨100, none⟩, 30, "UTC", none⟩ =
      (.ok { eventId := ""
             htmlLink := none
             summary := (none : Option String).getD (pyOr "Sync" "Meeting")
             start := (DateTime.mk 100 (some (Timezone.fixed 0))).isoformat
             end_ := (DateTime.mk 1900 (some (Timezone.fixed 0))).isoformat
             calendarId := "primary"
             requestId := _make_request_id ⟨"Ada", "Sync", ⟨100, none⟩, 30, "UTC", none⟩ },
       [.tokenRefresh, .eventInsert]) :=
  insert_success_without_id (fun _ : String => some (Timezone.fixed 0))
    ⟨"id", "secret", "refresh", "primary"⟩
    ⟨⟨200, ⟨some "tok", none, ""⟩⟩, ⟨200, ⟨none, none, none, none, none, "er"⟩⟩, 50⟩
    ⟨"Ada", "Sync", ⟨100, none⟩, 30, "UTC", none⟩
    (Timezone.fixed 0) ⟨100, some (Timezone.fixed 0)⟩ ⟨1900, some (Timezone.fixed 0)⟩
    "tok" rfl rfl rfl (by decide) rfl rfl (Or.inl rfl) rfl
